import Mathlib

/-!
Shallow embedding of `src/combine_data.py`, a tutorial script that combines
related datasets into single matplotlib plots: a dual-y-axis line plot, a
2×3 shared-axis subplot grid, and grouped/stacked bar charts of London
population data.  Numeric arrays are embedded as `List ℚ` / `List ℤ`
(the script's floating-point values are exact decimals at every point the
claims touch); plotting calls are embedded as explicit state on small
structures.
-/

namespace CombineData

/-- `np.linspace a b n`: `n` evenly spaced samples from `a` to `b`,
endpoints included (sample `i` is `a + (b - a) * i / (n - 1)`). -/
def linspace (a b : ℚ) (n : ℕ) : List ℚ :=
  (List.range n).map
    (fun i => a + (b - a) * (Nat.cast i : ℚ) / ((Nat.cast n : ℚ) - 1))

/-- `x = np.linspace(-10.0, 10.0, 1000)` (line 63, dual-axis example). -/
def x_arr : List ℚ := linspace (-10) 10 1000

/-- `t = np.linspace(-10.0, 10.0, 1000)` (line 159, subplot-grid example). -/
def t_arr : List ℚ := linspace (-10) 10 1000

/-- `np.sin(x)`, `np.sinh(t)`, ...: elementwise sampling of a function
over an array, generic in the sampled function. -/
def sampleOf (g : ℚ → ℚ) (v : List ℚ) : List ℚ := v.map g

/-- `years = np.array([1801, 1851, 1901, 1951, 2001])` (line 234). -/
def years : List ℤ := [1801, 1851, 1901, 1951, 2001]

/-- `inner_pop` as literally written (line 235), before rescaling. -/
def inner_pop : List ℤ := [879491, 1995846, 4670177, 3680821, 2765975]

/-- `outer_pop` as literally written (line 236), before rescaling. -/
def outer_pop : List ℤ := [131666, 290763, 1556317, 4483595, 4406061]

/-- `greater_pop = np.array([1011157, 2286609, 6226494, 8164416, 7172036])`
(line 237); never rescaled and never plotted. -/
def greater_pop : List ℤ := [1011157, 2286609, 6226494, 8164416, 7172036]

/-- `arr / 1.0e6`: elementwise conversion of a population array to millions
(lines 240-241). -/
def toMillions (l : List ℤ) : List ℚ :=
  l.map (fun v => (Int.cast v : ℚ) / 1000000)

/-- `inner_pop = inner_pop / 1.0e6` (line 240). -/
def inner_pop_m : List ℚ := toMillions inner_pop

/-- `outer_pop = outer_pop / 1.0e6` (line 241). -/
def outer_pop_m : List ℚ := toMillions outer_pop

/-- The years array viewed as rationals (numpy float context of lines 248/252). -/
def yearsQ : List ℚ := years.map (fun v => (Int.cast v : ℚ))

/-- `iyears = years - 5.0` (line 248): bar centers offset to the left. -/
def iyears : List ℚ := yearsQ.map (fun y => y - 5)

/-- `oyears = years + 5.0` (line 252): bar centers offset to the right. -/
def oyears : List ℚ := yearsQ.map (fun y => y + 5)

/-- One `plt.bar(centers, heights, width=w, label=s, bottom=b)` series.
Matplotlib draws bar `i` centered at `centers[i]`, spanning vertically from
`bottoms[i]` to `bottoms[i] + heights[i]`. -/
structure BarSeries where
  centers : List ℚ
  heights : List ℚ
  bottoms : List ℚ
  width : ℚ
  lbl : String

/-- `plt.bar` without the optional `bottom` argument: baseline 0 everywhere. -/
def bar (centers heights : List ℚ) (w : ℚ) (s : String) : BarSeries :=
  ⟨centers, heights, List.replicate heights.length 0, w, s⟩

/-- `plt.bar` with the optional `bottom` argument. -/
def barWithBottom (centers heights bottoms : List ℚ) (w : ℚ) (s : String) :
    BarSeries :=
  ⟨centers, heights, bottoms, w, s⟩

/-- `plt.bar(iyears, inner_pop, width=7.0, label="inner")` (line 251). -/
def groupedInner : BarSeries := bar iyears inner_pop_m 7 "inner"

/-- `plt.bar(oyears, outer_pop, width=7.0, label="outer")` (line 253). -/
def groupedOuter : BarSeries := bar oyears outer_pop_m 7 "outer"

/-- `plt.bar(years, inner_pop, width=10.0, label="inner")` (line 272). -/
def stackedInner : BarSeries := bar yearsQ inner_pop_m 10 "inner"

/-- `plt.bar(years, outer_pop, bottom=inner_pop, width=10.0, label="outer")`
(line 275). -/
def stackedOuter : BarSeries := barWithBottom yearsQ outer_pop_m inner_pop_m 10 "outer"

/-- Horizontal extent of the `i`-th bar of a series: matplotlib's default
center alignment covers `[c - w/2, c + w/2]`. -/
def barSpan (s : BarSeries) (i : ℕ) : ℚ × ℚ :=
  (s.centers.getD i 0 - s.width / 2, s.centers.getD i 0 + s.width / 2)

/-- Two closed intervals (given as endpoint pairs) are disjoint. -/
abbrev spanDisjoint (I J : ℚ × ℚ) : Prop := I.2 < J.1 ∨ J.2 < I.1

/-- Rendering baseline of the `i`-th bar of a series. -/
def barBase (s : BarSeries) (i : ℕ) : ℚ := s.bottoms.getD i 0

/-- Top edge of the `i`-th bar of a series: baseline plus height. -/
def barTop (s : BarSeries) (i : ℕ) : ℚ := s.bottoms.getD i 0 + s.heights.getD i 0

/-- C9: for every index of the hard-coded London population arrays, the raw
integer literals satisfy `greater_pop[i] = inner_pop[i] + outer_pop[i]`
exactly (before the rescaling to millions; `greater_pop` itself is never
rescaled). -/
theorem greater_pop_is_sum :
    greater_pop = List.zipWith (fun a b => a + b) inner_pop outer_pop := by
  decide

/-- C1: in the stacked bar example, the `outer` series is drawn from the
height of the `inner` series: at every category index the baseline of the
`outer` bar equals the corresponding element of (rescaled) `inner_pop`, so
its top edge equals `inner_pop + outer_pop` at that year. -/
theorem stacked_outer_baseline (i : ℕ) (h : i < 5) :
    barBase stackedOuter i = inner_pop_m.getD i 0 ∧
    barTop stackedOuter i = inner_pop_m.getD i 0 + outer_pop_m.getD i 0 :=
  ⟨rfl, rfl⟩

/-- Concrete instance of `stacked_outer_baseline` at index 0 (year 1801). -/
theorem stacked_outer_baseline_w :
    barBase stackedOuter 0 = inner_pop_m.getD 0 0 ∧
    barTop stackedOuter 0 = inner_pop_m.getD 0 0 + outer_pop_m.getD 0 0 :=
  stacked_outer_baseline 0 (by decide)

/-- C2: in the grouped bar example the two series sit at centers
`years - 5` and `years + 5` with width 7, and at every year the two bars'
horizontal extents are disjoint (the inner bar ends at `year - 1.5`, the
outer begins at `year + 1.5`). -/
theorem grouped_bars_disjoint (i : ℕ) (h : i < 5) :
    groupedInner.centers.getD i 0 = yearsQ.getD i 0 - 5 ∧
    groupedOuter.centers.getD i 0 = yearsQ.getD i 0 + 5 ∧
    groupedInner.width = 7 ∧ groupedOuter.width = 7 ∧
    spanDisjoint (barSpan groupedInner i) (barSpan groupedOuter i) := by
  interval_cases i <;>
    refine ⟨rfl, rfl, rfl, rfl, Or.inl ?_⟩ <;>
    simp [spanDisjoint, barSpan, groupedInner, groupedOuter, bar, iyears,
      oyears, yearsQ, years] <;>
    norm_num

/-- Concrete instance of `grouped_bars_disjoint` at index 0 (year 1801). -/
theorem grouped_bars_disjoint_w :
    spanDisjoint (barSpan groupedInner 0) (barSpan groupedOuter 0) :=
  (grouped_bars_disjoint 0 (by decide)).2.2.2.2

/-! ### The 2×3 shared-axis subplot grid (lines 150-211) -/

/-- Tags for the six precomputed sample arrays `sinh`, `cosh`, `tanh`,
`sin`, `cos`, `tan` of `t` (lines 160-165); the claims about the grid are
about which sampled curve is routed to which cell, not about the values. -/
inductive FuncTag
  | fsinh | fcosh | ftanh | fsin | fcos | ftan
deriving DecidableEq

/-- `funcs = [[sinh, cosh, tanh], [sin, cos, tan]]` (line 168). -/
def funcs : List (List FuncTag) :=
  [[.fsinh, .fcosh, .ftanh], [.fsin, .fcos, .ftan]]

/-- `labels = [["sinh", "cosh", "tanh"], ["sin", "cos", "tan"]]` (line 170). -/
def labels : List (List String) :=
  [["sinh", "cosh", "tanh"], ["sin", "cos", "tan"]]

/-- One `ax.plot(x, y, label=...)` command recorded on a grid cell. -/
structure PlotCmd where
  xdata : List ℚ
  ydata : FuncTag
  lbl : String
deriving DecidableEq

/-- State of one subplot cell: the series plotted into it so far and
whether `legend()` has been called on it. -/
structure CellState where
  plotted : List PlotCmd
  legendOn : Bool
deriving DecidableEq

/-- The 2×3 grid of axes returned by `plt.subplots(2, 3, ...)`, as a map
from (row, column) to the cell's state. -/
def Grid := ℕ → ℕ → CellState

/-- A freshly created grid: nothing plotted, no legends. -/
def emptyGrid : Grid := fun _ _ => ⟨[], false⟩

/-- Apply an operation to the single cell `axes[iy, ix]`. -/
def updateCell (g : Grid) (iy ix : ℕ) (f : CellState → CellState) : Grid :=
  fun r c => if r = iy ∧ c = ix then f (g r c) else g r c

/-- `one_sub(ax, x, y, label)` (lines 150-155): its only two actions are to
plot `(x, y)` with the given label and to add a legend to the cell. -/
def one_sub (c : CellState) (x : List ℚ) (y : FuncTag) (lbl : String) :
    CellState :=
  { plotted := c.plotted ++ [⟨x, y, lbl⟩], legendOn := true }

/-- `for ix in range(3): one_sub(axes[iy, ix], x, funcs[iy][ix],
labels[iy][ix])` — one row of the plotting loops (lines 194-195 and
199-200; note the loops pass `x`, not `t`). -/
def rowLoop (g : Grid) (iy : ℕ) : Grid :=
  (List.range 3).foldl
    (fun g ix =>
      updateCell g iy ix
        (fun c =>
          one_sub c x_arr ((funcs.getD iy []).getD ix .fsinh)
            ((labels.getD iy []).getD ix "")))
    g

/-- The grid after the top-row loop (`iy = 0`) and bottom-row loop
(`iy = 1`) have both run. -/
def gridFinal : Grid := rowLoop (rowLoop emptyGrid 0) 1

/-- C3: every one of the six cells of the 2×3 grid is populated exactly
once: cell `(iy, ix)` ends with exactly one plotted series, namely
`(x, funcs[iy][ix])` labelled `labels[iy][ix]`, and its legend turned on —
the two and only two actions of `one_sub`. -/
theorem grid_cells_populated_once (iy ix : ℕ) (hy : iy < 2) (hx : ix < 3) :
    (gridFinal iy ix).plotted =
      [⟨x_arr, (funcs.getD iy []).getD ix .fsinh,
        (labels.getD iy []).getD ix ""⟩] ∧
    (gridFinal iy ix).legendOn = true := by
  interval_cases iy <;> interval_cases ix <;> exact ⟨rfl, rfl⟩

/-- Concrete instance of `grid_cells_populated_once` at the top-left cell. -/
theorem grid_cells_populated_once_w :
    (gridFinal 0 0).plotted =
      [⟨x_arr, (funcs.getD 0 []).getD 0 .fsinh,
        (labels.getD 0 []).getD 0 ""⟩] ∧
    (gridFinal 0 0).legendOn = true :=
  grid_cells_populated_once 0 0 (by decide) (by decide)

/-! ### Axis sharing in the 2×3 grid (lines 177-190) -/

/-- `np.arange a b step` for integer arguments and positive step: the
integer-valued samples `a, a + step, ...` strictly below `b`. -/
def arange (a b step : ℤ) : List ℤ :=
  (List.range ((b - a + step - 1) / step).toNat).map
    (fun i => a + step * Int.ofNat i)

/-- Modelled from the spec: matplotlib's axis-sharing semantics for
`plt.subplots(2, 3, sharex="all", sharey="row")` (the plotting library is
not part of this repository's sources).  Per the spec, shared axes
synchronize ranges and ticks: each cell belongs to one x-share group and
one y-share group, and limits/ticks live on the group, so setting them
through any member cell affects every member.  `sharex="all"` puts all six
cells in one x-group; `sharey="row"` gives each row its own y-group. -/
structure SharedGrid where
  xGroupOf : ℕ → ℕ → ℕ
  yGroupOf : ℕ → ℕ → ℕ
  xlimOfGroup : ℕ → Option (ℚ × ℚ)
  ylimOfGroup : ℕ → Option (ℚ × ℚ)
  xticksMajOfGroup : ℕ → Option (List ℤ)
  xticksMinOfGroup : ℕ → Option (List ℤ)

/-- `fig, axes = plt.subplots(2, 3, sharex="all", sharey="row")`
(line 177): one x-group for all cells, one y-group per row, no limits or
ticks set yet (they would be chosen automatically). -/
def subplotsShareAllRow : SharedGrid :=
  { xGroupOf := fun _ _ => 0
    yGroupOf := fun iy _ => iy
    xlimOfGroup := fun _ => none
    ylimOfGroup := fun _ => none
    xticksMajOfGroup := fun _ => none
    xticksMinOfGroup := fun _ => none }

/-- `axes[iy, ix].set_xlim(lo, hi)`: sets the limits of the cell's
x-share group. -/
def gridSetXlim (g : SharedGrid) (iy ix : ℕ) (lo hi : ℚ) : SharedGrid :=
  { g with xlimOfGroup := fun n =>
      if n = g.xGroupOf iy ix then some (lo, hi) else g.xlimOfGroup n }

/-- `axes[iy, ix].set_ylim(lo, hi)`: sets the limits of the cell's
y-share group. -/
def gridSetYlim (g : SharedGrid) (iy ix : ℕ) (lo hi : ℚ) : SharedGrid :=
  { g with ylimOfGroup := fun n =>
      if n = g.yGroupOf iy ix then some (lo, hi) else g.ylimOfGroup n }

/-- `axes[iy, ix].set_xticks(ticks)` (major, the default): sets the major
ticks of the cell's x-share group. -/
def gridSetXticksMaj (g : SharedGrid) (iy ix : ℕ) (ticks : List ℤ) :
    SharedGrid :=
  { g with xticksMajOfGroup := fun n =>
      if n = g.xGroupOf iy ix then some ticks else g.xticksMajOfGroup n }

/-- `axes[iy, ix].set_xticks(ticks, minor=True)`: sets the minor ticks of
the cell's x-share group. -/
def gridSetXticksMin (g : SharedGrid) (iy ix : ℕ) (ticks : List ℤ) :
    SharedGrid :=
  { g with xticksMinOfGroup := fun n =>
      if n = g.xGroupOf iy ix then some ticks else g.xticksMinOfGroup n }

/-- The grid after the source's five single configuration calls
(lines 180-190): `axes[1,1].set_xlim(-10.0, 10.0)`,
`axes[0,1].set_ylim(-1.0e4, 1.0e4)`, `axes[1,1].set_ylim(-2.0, 2.0)`,
`axes[0,0].set_xticks(np.arange(-10, 11, 5))`,
`axes[0,0].set_xticks(np.arange(-10, 11, 1), minor=True)`. -/
def sharedGridFinal : SharedGrid :=
  gridSetXticksMin
    (gridSetXticksMaj
      (gridSetYlim
        (gridSetYlim
          (gridSetXlim subplotsShareAllRow 1 1 (-10) 10)
          0 1 (-10000) 10000)
        1 1 (-2) 2)
      0 0 (arange (-10) 11 5))
    0 0 (arange (-10) 11 1)

/-- Effective x-limits of cell `(iy, ix)`: those of its x-share group. -/
def cellXlim (g : SharedGrid) (iy ix : ℕ) : Option (ℚ × ℚ) :=
  g.xlimOfGroup (g.xGroupOf iy ix)

/-- Effective y-limits of cell `(iy, ix)`: those of its y-share group. -/
def cellYlim (g : SharedGrid) (iy ix : ℕ) : Option (ℚ × ℚ) :=
  g.ylimOfGroup (g.yGroupOf iy ix)

/-- Effective major x-ticks of cell `(iy, ix)`. -/
def cellXticksMaj (g : SharedGrid) (iy ix : ℕ) : Option (List ℤ) :=
  g.xticksMajOfGroup (g.xGroupOf iy ix)

/-- Effective minor x-ticks of cell `(iy, ix)`. -/
def cellXticksMin (g : SharedGrid) (iy ix : ℕ) : Option (List ℤ) :=
  g.xticksMinOfGroup (g.xGroupOf iy ix)

/-- C4: after the five single configuration calls, every cell of the grid
has x-limits `(-10, 10)` and the major/minor x-ticks that were set on
`axes[0,0]`; every top-row cell has y-limits `(-1.0e4, 1.0e4)` and every
bottom-row cell has y-limits `(-2.0, 2.0)`. -/
theorem shared_axes_linked (iy ix : ℕ) (hy : iy < 2) (hx : ix < 3) :
    cellXlim sharedGridFinal iy ix = some (-10, 10) ∧
    cellXticksMaj sharedGridFinal iy ix = some (arange (-10) 11 5) ∧
    cellXticksMin sharedGridFinal iy ix = some (arange (-10) 11 1) ∧
    (iy = 0 → cellYlim sharedGridFinal iy ix = some (-10000, 10000)) ∧
    (iy = 1 → cellYlim sharedGridFinal iy ix = some (-2, 2)) := by
  interval_cases iy <;> interval_cases ix <;>
    exact ⟨rfl, rfl, rfl, by intro h; first | rfl | exact absurd h (by decide),
      by intro h; first | rfl | exact absurd h (by decide)⟩

/-- Concrete instance of `shared_axes_linked` at the bottom-right cell,
which none of the five configuration calls touched directly. -/
theorem shared_axes_linked_w :
    cellXlim sharedGridFinal 1 2 = some (-10, 10) ∧
    cellXticksMaj sharedGridFinal 1 2 = some (arange (-10) 11 5) ∧
    cellXticksMin sharedGridFinal 1 2 = some (arange (-10) 11 1) ∧
    (1 = 0 → cellYlim sharedGridFinal 1 2 = some (-10000, 10000)) ∧
    (1 = 1 → cellYlim sharedGridFinal 1 2 = some (-2, 2)) :=
  shared_axes_linked 1 2 (by decide) (by decide)

/-! ### The dual-axis example (lines 60-102) -/

/-- Modelled from the spec: the figure state of the dual-axis example (the
plotting library is not part of this repository's sources).  Per the spec,
`twinx` creates a second plot-area object sharing the first one's
horizontal axis while keeping an independent vertical scale: axes are
numbered in creation order, all of them read one shared x-limit slot, and
each has its own y-limit slot, `none` meaning the limits are left to be
chosen automatically. -/
structure DualFig where
  numAxes : ℕ
  sharedXlim : Option (ℚ × ℚ)
  ylimOf : ℕ → Option (ℚ × ℚ)

/-- `fig, ax1 = plt.subplots()` (line 69): one axes object (id 0), all
limits automatic. -/
def dualFigStart : DualFig :=
  { numAxes := 1, sharedXlim := none, ylimOf := fun _ => none }

/-- `ax2 = ax1.twinx()` (line 84): instantiates a second axes object that
shares the same x-axis; y-limits of both stay untouched. -/
def twinx (f : DualFig) : DualFig :=
  { f with numAxes := f.numAxes + 1 }

/-- `ax.set_ylim(lo, hi)` on the axes with id `axId` (line 93 uses it on
`ax2`, id 1). -/
def figSetYlim (f : DualFig) (axId : ℕ) (lo hi : ℚ) : DualFig :=
  { f with ylimOf := fun n =>
      if n = axId then some (lo, hi) else f.ylimOf n }

/-- The x-limits seen by any axes of the figure: the shared slot. -/
def figXlimOf (f : DualFig) (axId : ℕ) : Option (ℚ × ℚ) :=
  f.sharedXlim

/-- The dual-axis figure after the example's axis-configuring calls:
`subplots()`, `twinx()`, `ax2.set_ylim(-1.0, 1.0)` (lines 69, 84, 93;
the plot/label/color calls do not touch limits). -/
def dualFigFinal : DualFig := figSetYlim (twinx dualFigStart) 1 (-1) 1

/-- C5: the dual-axis example configures exactly two plot-area objects;
they read identical x-limits (the shared slot created by `twinx`), while
their y-limits are independent: `ax2`'s are set by hand to `(-1.0, 1.0)`,
`ax1`'s are left automatic (`none`), and — for any figure state —
`set_ylim` on `ax2` never changes `ax1`'s y-limits. -/
theorem dual_axis_independent_y :
    dualFigFinal.numAxes = 2 ∧
    figXlimOf dualFigFinal 0 = figXlimOf dualFigFinal 1 ∧
    dualFigFinal.ylimOf 1 = some (-1, 1) ∧
    dualFigFinal.ylimOf 0 = none ∧
    (∀ (f : DualFig) (lo hi : ℚ), (figSetYlim f 1 lo hi).ylimOf 0 = f.ylimOf 0) :=
  ⟨rfl, rfl, rfl, rfl, fun f lo hi => by simp [figSetYlim]⟩

/-! ### The sampling domain of the grid curves (lines 63, 159, 195, 200) -/

/-- Zipping a list with its own image under `f` pairs every element with
its image. -/
theorem zip_map_self {α β : Type} (f : α → β) (l : List α) :
    List.zip l (List.map f l) = List.map (fun v => (v, f v)) l := by
  induction l with
  | nil => rfl
  | cons a t ih => simp only [List.map_cons, List.zip_cons_cons, ih]

/-- C10: the domain array `x` that the grid loops plot on the horizontal
axis is elementwise equal to the array `t` at which the six curves were
sampled (both are `np.linspace(-10.0, 10.0, 1000)`), so for any sampled
function the plotted point list pairs every sample point `v` with its
image: each drawn point has the form `(v, f v)`. -/
theorem grid_domain_consistent :
    x_arr = t_arr ∧
    ∀ (f : ℚ → ℚ),
      List.zip x_arr (sampleOf f t_arr) =
        List.map (fun v => (v, f v)) t_arr :=
  ⟨rfl, fun f => zip_map_self f t_arr⟩

/-! ### Which example creates and reads which array (whole file)

The spec groups the script into four examples: the dual-axis plot
(lines 60-102), the shared-axis subplot grid section (lines 123-211,
including the two warm-up grids), the grouped bar chart with its data cell
(lines 229-260), and the stacked bar chart (lines 270-282).  The
definitions below transcribe, example by example, which named arrays the
source creates and which it reads. -/

/-- The four examples the spec identifies in the script. -/
inductive ExampleId
  | dualAxis | sharedGrid | groupedBar | stackedBar
deriving DecidableEq, Fintype

/-- The named numeric arrays the script creates.  `sinSamples` is the
`sin = np.sin(x)` of line 65; `sinT` is the rebinding `sin = np.sin(t)` of
line 160 (similarly for `sinh`); `innerPopRaw`/`outerPopRaw` are the raw
count arrays, `innerPopM`/`outerPopM` their rescalings to millions. -/
inductive ArrName
  | xArr | sinhSamples | sinSamples
  | tVar | sinT | sinhT | cosT | coshT | tanT | tanhT
  | yearsArr | innerPopRaw | outerPopRaw | greaterPop
  | innerPopM | outerPopM | iyearsArr | oyearsArr
deriving DecidableEq, Fintype

/-- The example whose code creates each array (lines 63-65, 159-165,
234-241, 248, 252). -/
def createdIn : ArrName → ExampleId
  | .xArr | .sinhSamples | .sinSamples => .dualAxis
  | .tVar | .sinT | .sinhT | .cosT | .coshT | .tanT | .tanhT => .sharedGrid
  | _ => .groupedBar

/-- The arrays each example's code reads: the dual-axis example plots
`x`/`sinh`/`sin` (lines 78, 89); the grid section plots `x` and the
pre-rebinding `sin` at line 140, samples the six functions at `t`
(lines 160-165) and plots them against `x` (lines 195, 200); the grouped
bar example derives and plots its arrays (lines 240-241, 248, 251-253);
the stacked bar example plots `years`, `inner_pop`, `outer_pop`
(lines 272-275). -/
def referencedIn : ExampleId → List ArrName
  | .dualAxis => [.xArr, .sinhSamples, .sinSamples]
  | .sharedGrid => [.xArr, .sinSamples, .tVar, .sinT, .sinhT, .cosT,
      .coshT, .tanT, .tanhT]
  | .groupedBar => [.yearsArr, .innerPopRaw, .outerPopRaw, .innerPopM,
      .outerPopM, .iyearsArr, .oyearsArr]
  | .stackedBar => [.yearsArr, .innerPopM, .outerPopM]

/-- The arrays each example mutates in place (element assignment or an
in-place numpy operation).  No example contains any: the rescalings at
lines 240-241 build new arrays and rebind the names. -/
def inPlaceMutations : ExampleId → List ArrName
  | _ => []

/-- C6 as stated is false: the array `x`, created by the dual-axis example
at line 63, is referenced by the shared-axis grid example's plotting code
(lines 140, 195, 200) — a different example. -/
theorem array_scoping_counterexample :
    ArrName.xArr ∈ referencedIn ExampleId.sharedGrid ∧
    createdIn ArrName.xArr = ExampleId.dualAxis ∧
    ExampleId.dualAxis ≠ ExampleId.sharedGrid := by
  decide

/-- C6 amended: no array is mutated in place after creation, and every
array reference stays inside the example that created the array, except
that the grid section reuses the dual-axis example's `x` and `sin`
(lines 140, 195, 200) and the stacked bar example reuses the grouped-bar
section's `years`, `inner_pop` and `outer_pop` (lines 272-275). -/
theorem array_scoping_amended :
    (∀ e, inPlaceMutations e = []) ∧
    (∀ (e : ExampleId) (a : ArrName), a ∈ referencedIn e →
      createdIn a = e ∨
      (e = .sharedGrid ∧ createdIn a = .dualAxis ∧
        (a = .xArr ∨ a = .sinSamples)) ∨
      (e = .stackedBar ∧ createdIn a = .groupedBar ∧
        (a = .yearsArr ∨ a = .innerPopM ∨ a = .outerPopM))) := by
  exact ⟨by intro e; cases e <;> rfl, by decide⟩

/-- Concrete instance of `array_scoping_amended` at the stacked bar
example's reference to `years`. -/
theorem array_scoping_amended_w :
    createdIn ArrName.yearsArr = ExampleId.stackedBar ∨
    (ExampleId.stackedBar = .sharedGrid ∧
      createdIn ArrName.yearsArr = .dualAxis ∧
      (ArrName.yearsArr = .xArr ∨ ArrName.yearsArr = .sinSamples)) ∨
    (ExampleId.stackedBar = .stackedBar ∧
      createdIn ArrName.yearsArr = .groupedBar ∧
      (ArrName.yearsArr = .yearsArr ∨ ArrName.yearsArr = .innerPopM ∨
        ArrName.yearsArr = .outerPopM)) :=
  array_scoping_amended.2 .stackedBar .yearsArr (by decide)

/-! ### Paired x/y data at every plotting call site -/

/-- The x/y array pairs passed at every `plot` or `bar` call site of the
script, generic in the six sampled functions: `ax1.plot(x, sinh)` (78),
`ax2.plot(x, sin)` (89), `ax_bl.plot(x, sin)` (140), the six `one_sub`
calls plotting `funcs[iy][ix]` — sampled at `t` — against `x` (195, 200),
and the four bar calls (251, 253, 272, 275). -/
def callSites (gsinh gsin gcos gcosh gtan gtanh : ℚ → ℚ) :
    List (List ℚ × List ℚ) :=
  [(x_arr, sampleOf gsinh x_arr),
   (x_arr, sampleOf gsin x_arr),
   (x_arr, sampleOf gsin x_arr),
   (x_arr, sampleOf gsinh t_arr),
   (x_arr, sampleOf gcosh t_arr),
   (x_arr, sampleOf gtanh t_arr),
   (x_arr, sampleOf gsin t_arr),
   (x_arr, sampleOf gcos t_arr),
   (x_arr, sampleOf gtan t_arr),
   (iyears, inner_pop_m),
   (oyears, outer_pop_m),
   (yearsQ, inner_pop_m),
   (yearsQ, outer_pop_m)]

/-- C7: the plotting library's equal-length precondition for paired x/y
data holds at every `plot`/`bar` call site, whatever the sampled
functions: the function-sample arrays all have 1000 elements, the
year/population arrays all have 5, and each call site's two arrays have
equal length, so the library's mismatched-length error branch is
unreachable. -/
theorem call_sites_length_matched
    (gsinh gsin gcos gcosh gtan gtanh : ℚ → ℚ) :
    x_arr.length = 1000 ∧ t_arr.length = 1000 ∧
    yearsQ.length = 5 ∧ inner_pop_m.length = 5 ∧ outer_pop_m.length = 5 ∧
    iyears.length = 5 ∧ oyears.length = 5 ∧
    ∀ p ∈ callSites gsinh gsin gcos gcosh gtan gtanh,
      p.1.length = p.2.length := by
  refine ⟨?_, ?_, ?_, ?_, ?_, ?_, ?_, ?_⟩
  · simp only [x_arr, linspace, List.length_map, List.length_range]
  · simp only [t_arr, linspace, List.length_map, List.length_range]
  · simp only [yearsQ, years, List.length_map, List.length_cons,
      List.length_nil]
  · simp only [inner_pop_m, toMillions, inner_pop, List.length_map,
      List.length_cons, List.length_nil]
  · simp only [outer_pop_m, toMillions, outer_pop, List.length_map,
      List.length_cons, List.length_nil]
  · simp only [iyears, yearsQ, years, List.length_map, List.length_cons,
      List.length_nil]
  · simp only [oyears, yearsQ, years, List.length_map, List.length_cons,
      List.length_nil]
  · intro p hp
    simp only [callSites, List.mem_cons, List.not_mem_nil, or_false] at hp
    rcases hp with rfl | rfl | rfl | rfl | rfl | rfl | rfl | rfl | rfl |
      rfl | rfl | rfl | rfl <;>
      simp only [sampleOf, x_arr, t_arr, linspace, iyears, oyears, yearsQ,
        years, inner_pop_m, outer_pop_m, toMillions, inner_pop, outer_pop,
        List.length_map, List.length_range, List.length_cons, List.length_nil]

/-- Concrete instance of `call_sites_length_matched` at the first call
site, with the identity as the sampled function. -/
theorem call_sites_length_matched_w :
    (x_arr, sampleOf id x_arr).1.length = (x_arr, sampleOf id x_arr).2.length :=
  (call_sites_length_matched id id id id id id).2.2.2.2.2.2.2
    (x_arr, sampleOf id x_arr) (by unfold callSites; exact List.Mem.head _)

/-! ### The script as a straight-line call sequence -/

/-- The script's top-level plotting-library calls, in source order: the
whole file is a straight line of such calls with no `try`/`except`
anywhere (lines 29-282). -/
def scriptCalls : List String :=
  ["plt.figure", "plt.close",
   "plt.subplots", "plt.show",
   "plt.subplots", "ax1.set_xlabel", "ax1.set_ylabel", "ax1.plot",
   "ax1.tick_params", "ax1.twinx", "ax2.set_ylabel", "ax2.plot",
   "ax2.tick_params", "ax2.set_ylim", "fig.tight_layout", "plt.show",
   "plt.subplots", "axes[1,1].set_xlim", "plt.show",
   "plt.subplots", "ax_bl.set_xlim", "ax_bl.set_ylim", "ax_bl.plot",
   "plt.show",
   "plt.subplots", "axes[1,1].set_xlim", "axes[0,1].set_ylim",
   "axes[1,1].set_ylim", "axes[0,0].set_xticks", "axes[0,0].set_xticks",
   "one_sub", "one_sub", "one_sub", "one_sub", "one_sub", "one_sub",
   "fig.suptitle", "axes[1,0].set_xlabel", "axes[1,1].set_xlabel",
   "axes[1,2].set_xlabel", "axes[1,0].set_ylabel", "axes[0,0].set_ylabel",
   "plt.figure", "plt.bar", "plt.bar", "plt.title", "plt.xlabel",
   "plt.ylabel", "plt.legend", "plt.show",
   "plt.figure", "plt.bar", "plt.bar", "plt.title", "plt.xlabel",
   "plt.ylabel", "plt.legend", "plt.show"]

/-- Straight-line execution of a sequence of fallible calls with no
handler anywhere: the first failure aborts the run and its error is the
run's result, unchanged. -/
def runSeq {ε : Type} : List (Except ε Unit) → Except ε Unit
  | [] => Except.ok ()
  | Except.ok _ :: rs => runSeq rs
  | Except.error e :: _ => Except.error e

/-- In a straight-line run, if every call before position `k` succeeds and
the call at `k` fails with `e`, the whole run fails with `e`. -/
theorem runSeq_propagates {ε α : Type} (d : α) (interp : α → Except ε Unit)
    (e : ε) :
    ∀ (l : List α) (k : ℕ), k < l.length →
      interp (l.getD k d) = Except.error e →
      (∀ j, j < k → interp (l.getD j d) = Except.ok ()) →
      runSeq (l.map interp) = Except.error e := by
  intro l
  induction l with
  | nil => intro k hk; exact absurd hk (by simp)
  | cons a t ih =>
    intro k hk herr hok
    match k with
    | 0 =>
      simp only [List.getD_cons_zero] at herr
      simp [runSeq, herr]
    | k' + 1 =>
      have ha : interp a = Except.ok () := hok 0 (Nat.succ_pos k')
      simp only [List.map_cons, runSeq, ha]
      exact ih k' (by simpa using hk) (by simpa using herr)
        (fun j hj => hok (j + 1) (by omega))

/-- C8: the script implements no error handling of its own — it is a
straight-line sequence of library calls with no handler — so under any
interpretation of the calls in which some call raises, the first raised
error propagates unchanged out of the script and terminates the run. -/
theorem script_propagates_errors {ε : Type}
    (interp : String → Except ε Unit) (k : ℕ) (e : ε)
    (hk : k < scriptCalls.length)
    (herr : interp (scriptCalls.getD k "") = Except.error e)
    (hok : ∀ j, j < k → interp (scriptCalls.getD j "") = Except.ok ()) :
    runSeq (scriptCalls.map interp) = Except.error e :=
  runSeq_propagates "" interp e scriptCalls k hk herr hok

/-- Concrete instance of `script_propagates_errors`: an interpretation in
which the second call (`plt.close`) raises error `3` makes the whole run
return error `3`. -/
theorem script_propagates_errors_w :
    runSeq (scriptCalls.map
      (fun c => if c = "plt.close" then Except.error 3 else Except.ok ())) =
      Except.error (3 : ℕ) :=
  script_propagates_errors
    (fun c => if c = "plt.close" then Except.error 3 else Except.ok ())
    1 3 (by decide) (by rfl) (by intro j hj; interval_cases j; rfl)

end CombineData
